import Mathlib

/-
Shallow embedding of the observer subsystem of this repository:
  src/crates/bevy_ecs/src/observer/builder.rs  (ObserverBuilder, EventBuilder)
  src/crates/bevy_ecs/src/observer/runner.rs   (ObserverComponent and its default runner)

Modelling conventions:
  * `Entity`, `ComponentId`, `TypeId` are opaque identifiers, modelled as `Nat`.
  * The type registry (`commands.components()` / `Components::get_id`) is an
    abstract map `TypeId → Option ComponentId`.
  * A Rust `panic!` / failed `assert!` / `debug_checked_unwrap` on `None` is
    modelled by the operation returning `none` (the fallible result type).
  * The deferred command queue (`Commands::add`, `EntityCommands::insert`) is
    modelled as an explicit list of queued commands that an operation appends to;
    "deferred" means the effect is only a queued command, not an applied change.
  * The type-erased boxed callback (`BoxedObserverSystem`) is modelled by a
    record carrying an identifier and its `is_exclusive` flag; the `ObserverRunner`
    function pointer is modelled by a tag (the default runner closure vs. a
    caller-supplied raw runner identified by a number).
  * The default runner closure in `ObserverComponent::from` is embedded as a
    state-transition function on the observer record: it receives the record
    stored at `trigger.observer`, the world's global `last_event_id` counter and
    the trigger, and returns the updated record together with a trace of the
    side-effecting steps it performed (callback invocation, deferred-command
    flush, take/put-back of the callback slot), or `none` for a panic.
-/

namespace BevyObserver

/-- Entity identifier (`Entity`), modelled as a natural number. -/
abbrev Entity := Nat

/-- Sentinel "no entity" placeholder, `Entity::PLACEHOLDER` (`u32::MAX` index). -/
def Entity.PLACEHOLDER : Entity := 4294967295

/-- Registered component/event identifier (`ComponentId`), modelled as a natural number. -/
abbrev ComponentId := Nat

/-- Static type identifier (`std::any::TypeId`), modelled as a natural number. -/
abbrev TypeId := Nat

/-- Modelled from the spec: `NO_EVENT`, the sentinel event identifier registered
for the default `NoEvent` event type, is defined outside src/ (observer mod.rs);
only its role as a distinguished constant matters here. -/
def NO_EVENT : ComponentId := 0

/-- Type registry boundary (`commands.components()`): maps a `TypeId` to its
registered `ComponentId`, or `none` when the type is unregistered. -/
structure Components where
  get_id : TypeId → Option ComponentId

/-- Observer match-criteria descriptor (`ObserverDescriptor`, observer mod.rs):
event identifiers, component identifiers and source entities. Lists model the
`Vec` fields, with `push`/`extend` appending at the end. -/
structure ObserverDescriptor where
  events : List ComponentId
  components : List ComponentId
  sources : List Entity
deriving DecidableEq

/-- Default (empty) descriptor, `ObserverDescriptor::default()`. -/
def ObserverDescriptor.mkDefault : ObserverDescriptor :=
  { events := [], components := [], sources := [] }

/-- Modelled from the spec: matching an emitted event to an observer requires the
event's identifier to be in the observer's event set, or that set to be empty
(empty = "any event"). The dispatch/index code is outside src/. -/
def eventCriterionMatches (d : ObserverDescriptor) (eventId : ComponentId) : Bool :=
  d.events.isEmpty || d.events.contains eventId

/-- Type-erased boxed callback (`BoxedObserverSystem = Box<dyn ObserverSystem>`):
modelled by an identifier plus the `System::is_exclusive` flag the constructor
asserts on. -/
structure BoxedObserverSystem where
  id : Nat
  is_exclusive : Bool
deriving DecidableEq

/-- Type-erased runner (`pub type ObserverRunner = fn(DeferredWorld, ObserverTrigger,
PtrMut)`). Function pointers are modelled by tags: the default runner closure
built by `ObserverComponent::from`, or a caller-supplied raw runner. -/
inductive ObserverRunner where
  | defaultTag : ObserverRunner
  | raw : Nat → ObserverRunner
deriving DecidableEq

/-- Observer record (`ObserverComponent`, runner.rs lines 11-16): descriptor,
runner, optional boxed callback, and the last-processed event counter value. -/
structure ObserverComponent where
  descriptor : ObserverDescriptor
  runner : ObserverRunner
  system : Option BoxedObserverSystem
  last_event_id : Nat
deriving DecidableEq

/-- Dispatch trigger context (`ObserverTrigger`, defined in observer mod.rs
outside src/; the runner reads `trigger.observer` and `trigger.source`). -/
structure ObserverTrigger where
  observer : Entity
  source : Entity
  event : ComponentId
deriving DecidableEq

/-- Side-effecting steps the default runner performs, in order, used to state
ordering properties (take before run, flush after run, put back last). -/
inductive RunnerAction where
  | setLastEventId : Nat → RunnerAction
  | takeSystem : RunnerAction
  | runCallback : RunnerAction
  | queueDeferred : RunnerAction
  | putBackSystem : RunnerAction
deriving DecidableEq

/-- Default runner closure of `ObserverComponent::from` (runner.rs lines 50-80).
Inputs: the `ObserverComponent` stored at `trigger.observer`, the world's global
`last_event_id` counter, and the trigger. Output: the record after the call and
the trace of performed steps, or `none` when the closure panics (the
`debug_checked_unwrap` on the `take` of an absent callback slot; unchecked and
therefore undefined behavior in release builds).
Steps mirrored from the source: placeholder-source early return; dedup check
against the global counter with early return on equality; counter update;
`state.system.take()`; `run_unsafe`; `queue_deferred`; restore of the callback. -/
def ObserverComponent.default_runner (comp : ObserverComponent) (last_event : Nat)
    (trigger : ObserverTrigger) : Option (ObserverComponent × List RunnerAction) :=
  if trigger.source = Entity.PLACEHOLDER then
    some (comp, [])
  else if comp.last_event_id = last_event then
    some (comp, [])
  else
    match comp.system with
    | none => none
    | some sys =>
      some ({ comp with last_event_id := last_event, system := some sys },
            [RunnerAction.setLastEventId last_event, RunnerAction.takeSystem,
             RunnerAction.runCallback, RunnerAction.queueDeferred,
             RunnerAction.putBackSystem])

/-- Constructor `ObserverComponent::from` (runner.rs lines 36-85): asserts the
callback is not exclusive (a failed `assert!` is a panic, modelled `none`),
then produces the record with the default runner closure, the boxed callback in
the slot, and `last_event_id = 0`. -/
def ObserverComponent.fromSystem (descriptor : ObserverDescriptor)
    (system : BoxedObserverSystem) : Option ObserverComponent :=
  if system.is_exclusive then
    none
  else
    some { descriptor := descriptor, runner := ObserverRunner.defaultTag,
           system := some system, last_event_id := 0 }

/-- Constructor `ObserverComponent::from_runner` (runner.rs lines 87-94). -/
def ObserverComponent.from_runner (descriptor : ObserverDescriptor)
    (runner : ObserverRunner) : ObserverComponent :=
  { descriptor := descriptor, runner := runner, system := none, last_event_id := 0 }

/-- Commands the observer builder enqueues on the deferred command queue:
`insertComponent` models `commands.entity(e).insert(component)` with an
already-constructed record (the `runner` finalizer), and `constructAndInsert`
models the closure queued by `run` (builder.rs lines 112-115) that will call
`ObserverComponent::from` and insert the result when the queue is flushed. -/
inductive ObserverCommand where
  | insertComponent : Entity → ObserverComponent → ObserverCommand
  | constructAndInsert : Entity → ObserverDescriptor → BoxedObserverSystem → ObserverCommand
deriving DecidableEq

/-- Effect of flushing one queued observer command: the record that ends up
attached to the entity (`none` when the deferred `ObserverComponent::from`
panics on an exclusive callback). -/
def runObserverCommand : ObserverCommand → Option (Entity × ObserverComponent)
  | ObserverCommand.insertComponent e c => some (e, c)
  | ObserverCommand.constructAndInsert e d s =>
    (ObserverComponent.fromSystem d s).map (fun c => (e, c))

/-- Observer builder state (`ObserverBuilder`, builder.rs lines 8-13): the host
entity and the accumulated descriptor. The `Commands` handle is passed to each
operation explicitly; the command queue is threaded as an explicit list. -/
structure ObserverBuilder where
  entity : Entity
  descriptor : ObserverDescriptor
deriving DecidableEq

/-- Builder constructor `ObserverBuilder::new_with_entity` (builder.rs lines
22-44): looks up the event type in the registry, panicking (`none`) when it is
unregistered; pushes the resulting identifier into the event set unless it is
the `NO_EVENT` sentinel. -/
def ObserverBuilder.new_with_entity (cs : Components) (eventTid : TypeId)
    (entity : Entity) : Option ObserverBuilder :=
  match cs.get_id eventTid with
  | none => none
  | some event =>
    let descriptor := ObserverDescriptor.mkDefault
    let descriptor :=
      if event ≠ NO_EVENT then
        { descriptor with events := descriptor.events ++ [event] }
      else descriptor
    some { entity := entity, descriptor := descriptor }

/-- Builder operation `on_event::<NewE>` (builder.rs lines 48-62): registry
lookup of the new event type, panic (`none`) when unregistered, otherwise push
its identifier onto the event set. The type-level narrowing to `NoEvent` has no
runtime content. -/
def ObserverBuilder.on_event (b : ObserverBuilder) (cs : Components)
    (newEventTid : TypeId) : Option ObserverBuilder :=
  match cs.get_id newEventTid with
  | none => none
  | some event =>
    some { b with descriptor :=
            { b.descriptor with events := b.descriptor.events ++ [event] } }

/-- Builder operation `on_event_ids` (builder.rs lines 66-73): extend the event
set with caller-supplied identifiers, no registry lookup. -/
def ObserverBuilder.on_event_ids (b : ObserverBuilder)
    (ids : List ComponentId) : ObserverBuilder :=
  { b with descriptor := { b.descriptor with events := b.descriptor.events ++ ids } }

/-- Bundle resolution `B::get_component_ids` as used in builder.rs: a bundle is
the list of its member `TypeId`s; each member is looked up in the registry and
any unregistered member is a panic (`none`) at that call site. -/
def resolveBundleIds (cs : Components) : List TypeId → Option (List ComponentId)
  | [] => some []
  | t :: rest =>
    match cs.get_id t, resolveBundleIds cs rest with
    | some i, some is => some (i :: is)
    | _, _ => none

/-- Builder operation `components::<B>` (builder.rs lines 76-86): resolve the
bundle's member types and append the identifiers to the component set; an
unregistered member panics (`none`). -/
def ObserverBuilder.components (b : ObserverBuilder) (cs : Components)
    (bundle : List TypeId) : Option ObserverBuilder :=
  match resolveBundleIds cs bundle with
  | none => none
  | some ids =>
    some { b with descriptor :=
            { b.descriptor with components := b.descriptor.components ++ ids } }

/-- Builder operation `component_ids` (builder.rs lines 89-92). -/
def ObserverBuilder.component_ids (b : ObserverBuilder)
    (ids : List ComponentId) : ObserverBuilder :=
  { b with descriptor :=
      { b.descriptor with components := b.descriptor.components ++ ids } }

/-- Builder operation `source` (builder.rs lines 95-98). -/
def ObserverBuilder.sourceEntity (b : ObserverBuilder) (src : Entity) : ObserverBuilder :=
  { b with descriptor := { b.descriptor with sources := b.descriptor.sources ++ [src] } }

/-- Finalizer `ObserverBuilder::run` (builder.rs lines 101-117): appends the
callback bundle's resolved identifiers to the component set (panic on an
unregistered member), clones the resulting descriptor, enqueues the deferred
construct-and-insert closure on the command queue, and returns the host entity
together with the updated builder and queue. -/
def ObserverBuilder.run (b : ObserverBuilder) (cs : Components) (bundle : List TypeId)
    (callback : BoxedObserverSystem) (queue : List ObserverCommand) :
    Option (Entity × ObserverBuilder × List ObserverCommand) :=
  match resolveBundleIds cs bundle with
  | none => none
  | some ids =>
    let descriptor :=
      { b.descriptor with components := b.descriptor.components ++ ids }
    some (b.entity, { b with descriptor := descriptor },
          queue ++ [ObserverCommand.constructAndInsert b.entity descriptor callback])

/-- Finalizer `ObserverBuilder::runner` (builder.rs lines 121-125): constructs
the record via `ObserverComponent::from_runner` immediately (a clone of the
descriptor, the supplied raw runner, no boxed callback) and enqueues its
insertion onto the host entity through `self.commands` (deferred); returns the
host entity. -/
def ObserverBuilder.runnerFinalize (b : ObserverBuilder) (r : ObserverRunner)
    (queue : List ObserverCommand) : Entity × List ObserverCommand :=
  let component := ObserverComponent.from_runner b.descriptor r
  (b.entity, queue ++ [ObserverCommand.insertComponent b.entity component])

/-- Event builder (`EventBuilder<E>`, builder.rs lines 129-135), polymorphic in
the payload type `E`. -/
structure EventBuilder (E : Type) where
  event : Option ComponentId
  targets : List Entity
  components : List ComponentId
  data : Option E
deriving DecidableEq

/-- Queued dispatch command (`EmitEcsEvent<E>` as filled in by `emit`):
the optional overridden event identifier, the payload, the target entities and
the target components. -/
structure EmitEcsEvent (E : Type) where
  event : Option ComponentId
  data : E
  entities : List Entity
  components : List ComponentId
deriving DecidableEq

/-- Constructor `EventBuilder::new` (builder.rs lines 140-148). -/
def EventBuilder.new (data : E) : EventBuilder E :=
  { event := none, targets := [], components := [], data := some data }

/-- Operation `EventBuilder::entity` (builder.rs lines 152-155). -/
def EventBuilder.entityTarget (b : EventBuilder E) (target : Entity) : EventBuilder E :=
  { b with targets := b.targets ++ [target] }

/-- Operation `EventBuilder::event_id` (builder.rs lines 161-164), the
caller-asserted-safety override of the inferred event identifier. -/
def EventBuilder.event_id (b : EventBuilder E) (i : ComponentId) : EventBuilder E :=
  { b with event := some i }

/-- Operation `EventBuilder::component` (builder.rs lines 168-171). -/
def EventBuilder.component (b : EventBuilder E) (componentId : ComponentId) : EventBuilder E :=
  { b with components := b.components ++ [componentId] }

/-- Finalizer `EventBuilder::emit` (builder.rs lines 174-181): `mem::take`s the
payload (panicking, modelled `none`, when it is already absent), the target list
and the component list, and enqueues one `EmitEcsEvent` command carrying them
along with the optional overridden event identifier. The builder keeps its
`event` field (`Option<ComponentId>` is `Copy`) but loses payload and lists. -/
def EventBuilder.emit (b : EventBuilder E) (queue : List (EmitEcsEvent E)) :
    Option (List (EmitEcsEvent E) × EventBuilder E) :=
  match b.data with
  | none => none
  | some d =>
    some (queue ++ [{ event := b.event, data := d, entities := b.targets,
                      components := b.components }],
          { b with data := none, targets := [], components := [] })

/-
Concrete values used by witnesses and counterexamples.
-/

/-- Concrete non-exclusive boxed callback. -/
def sysW : BoxedObserverSystem := { id := 1, is_exclusive := false }

/-- Concrete exclusive boxed callback. -/
def sysExcl : BoxedObserverSystem := { id := 2, is_exclusive := true }

/-- Concrete descriptor. -/
def descW : ObserverDescriptor := { events := [3], components := [4], sources := [] }

/-- Concrete record that has not yet run in the current batch (counter 0). -/
def compFresh : ObserverComponent :=
  { descriptor := descW, runner := ObserverRunner.defaultTag,
    system := some sysW, last_event_id := 0 }

/-- Concrete record that already ran in batch 1 (`last_event_id = 1`). -/
def compSeen : ObserverComponent :=
  { descriptor := descW, runner := ObserverRunner.defaultTag,
    system := some sysW, last_event_id := 1 }

/-- Concrete record whose callback slot is absent. -/
def compAbsent : ObserverComponent :=
  { descriptor := descW, runner := ObserverRunner.defaultTag,
    system := none, last_event_id := 0 }

/-- Concrete trigger with a real (non-placeholder) source entity. -/
def trigW : ObserverTrigger := { observer := 1, source := 2, event := 3 }

/-- Concrete trigger whose source is the placeholder sentinel. -/
def trigPh : ObserverTrigger :=
  { observer := 1, source := Entity.PLACEHOLDER, event := 3 }

/-- Concrete registry: type 0 is the `NoEvent` type registered at the `NO_EVENT`
sentinel, types 1 and 2 are ordinary registered types, everything else is
unregistered. -/
def csW : Components :=
  ⟨fun t => if t = 0 then some NO_EVENT
            else if t = 1 then some 10
            else if t = 2 then some 11
            else none⟩

/-- Concrete observer builder. -/
def builderW : ObserverBuilder := { entity := 5, descriptor := descW }

/-- Concrete event builder holding payload 42. -/
def eventBuilderW : EventBuilder Nat :=
  { event := some 9, targets := [4], components := [6], data := some 42 }

/-
Shared helper lemmas.
-/

/-- Helper: any completed default-runner invocation with a non-placeholder
source leaves the record's counter equal to the global counter. -/
theorem default_runner_completed_counter (comp : ObserverComponent)
    (last_event : Nat) (trigger : ObserverTrigger) (c' : ObserverComponent)
    (tr : List RunnerAction) (hsrc : trigger.source ≠ Entity.PLACEHOLDER)
    (h : comp.default_runner last_event trigger = some (c', tr)) :
    c'.last_event_id = last_event := by
  unfold ObserverComponent.default_runner at h
  rw [if_neg hsrc] at h
  by_cases hl : comp.last_event_id = last_event
  · rw [if_pos hl] at h
    simp only [Option.some.injEq, Prod.mk.injEq] at h
    obtain ⟨h1, _⟩ := h
    rw [← h1]
    exact hl
  · rw [if_neg hl] at h
    cases hs : comp.system with
    | none => rw [hs] at h; simp at h
    | some sys =>
      rw [hs] at h
      simp only [Option.some.injEq, Prod.mk.injEq] at h
      obtain ⟨h1, _⟩ := h
      rw [← h1]

/-- Helper: resolving a bundle with an unregistered member type panics. -/
theorem resolveBundleIds_eq_none (cs : Components) (bundle : List TypeId)
    (t : TypeId) (hmem : t ∈ bundle) (h : cs.get_id t = none) :
    resolveBundleIds cs bundle = none := by
  induction bundle with
  | nil => cases hmem
  | cons a rest ih =>
    rcases List.mem_cons.mp hmem with rfl | hmem2
    · simp [resolveBundleIds, h]
    · have hr := ih hmem2
      cases hga : cs.get_id a <;> simp [resolveBundleIds, hga, hr]

/-
Claim theorems.
-/

/-- Claim C1: with a non-placeholder trigger source, if the record's stored
`last_event_id` equals the current global counter the default runner returns
without invoking the callback and without modifying the record; otherwise it
sets `last_event_id` to the current counter before invoking the callback (the
counter update precedes `runCallback` in the trace). Consequently, within one
emission batch (one counter value) the callback runs at most once: any
completed invocation leaves a record on which a further invocation at the same
counter value is a skip that changes nothing and invokes nothing. -/
theorem default_runner_dedup (comp : ObserverComponent) (last_event : Nat)
    (trigger : ObserverTrigger) (hsrc : trigger.source ≠ Entity.PLACEHOLDER) :
    (comp.last_event_id = last_event →
      comp.default_runner last_event trigger = some (comp, [])) ∧
    (comp.last_event_id ≠ last_event → ∀ sys, comp.system = some sys →
      comp.default_runner last_event trigger =
        some ({ comp with last_event_id := last_event, system := some sys },
              [RunnerAction.setLastEventId last_event, RunnerAction.takeSystem,
               RunnerAction.runCallback, RunnerAction.queueDeferred,
               RunnerAction.putBackSystem])) ∧
    (∀ c' tr, comp.default_runner last_event trigger = some (c', tr) →
      ∀ trigger2, trigger2.source ≠ Entity.PLACEHOLDER →
        c'.default_runner last_event trigger2 = some (c', [])) := by
  refine ⟨fun h => ?_, fun hne sys hsys => ?_, fun c' tr h trigger2 h2 => ?_⟩
  · simp [ObserverComponent.default_runner, hsrc, h]
  · simp [ObserverComponent.default_runner, hsrc, hne, hsys]
  · have hc' := default_runner_completed_counter comp last_event trigger c' tr hsrc h
    simp [ObserverComponent.default_runner, h2, hc']

/-- Claim C1 witness: a record whose counter already equals the batch counter is
skipped unchanged. -/
theorem default_runner_dedup_witness :
    ObserverComponent.default_runner compSeen 1 trigW = some (compSeen, []) :=
  (default_runner_dedup compSeen 1 trigW (by decide)).1 rfl

/-- Claim C2: every runner invocation that proceeds past the dedup check and
completes normally (result present and the callback ran) performs, in order:
counter update, take of the boxed callback, callback invocation, flush of the
callback's queued deferred commands, and restoration of the callback; the
resulting record's callback slot holds the same boxed callback and is occupied. -/
theorem default_runner_take_put_back (comp : ObserverComponent) (last_event : Nat)
    (trigger : ObserverTrigger) (c' : ObserverComponent) (tr : List RunnerAction)
    (h : comp.default_runner last_event trigger = some (c', tr))
    (hrun : RunnerAction.runCallback ∈ tr) :
    tr = [RunnerAction.setLastEventId last_event, RunnerAction.takeSystem,
          RunnerAction.runCallback, RunnerAction.queueDeferred,
          RunnerAction.putBackSystem] ∧
    c'.system = comp.system ∧ c'.system.isSome = true := by
  unfold ObserverComponent.default_runner at h
  by_cases hp : trigger.source = Entity.PLACEHOLDER
  · rw [if_pos hp] at h
    simp only [Option.some.injEq, Prod.mk.injEq] at h
    obtain ⟨_, h2⟩ := h
    rw [← h2] at hrun
    simp at hrun
  · rw [if_neg hp] at h
    by_cases hl : comp.last_event_id = last_event
    · rw [if_pos hl] at h
      simp only [Option.some.injEq, Prod.mk.injEq] at h
      obtain ⟨_, h2⟩ := h
      rw [← h2] at hrun
      simp at hrun
    · rw [if_neg hl] at h
      cases hs : comp.system with
      | none => rw [hs] at h; simp at h
      | some sys =>
        rw [hs] at h
        simp only [Option.some.injEq, Prod.mk.injEq] at h
        obtain ⟨h1, h2⟩ := h
        rw [← h1, ← h2]
        exact ⟨rfl, rfl, rfl⟩

/-- Claim C2 witness: a fresh record at batch counter 1 runs its callback with
the take/run/flush/put-back trace and ends with its slot occupied by the same
callback. -/
theorem default_runner_take_put_back_witness :
    ([RunnerAction.setLastEventId 1, RunnerAction.takeSystem,
      RunnerAction.runCallback, RunnerAction.queueDeferred,
      RunnerAction.putBackSystem] : List RunnerAction) =
      [RunnerAction.setLastEventId 1, RunnerAction.takeSystem,
       RunnerAction.runCallback, RunnerAction.queueDeferred,
       RunnerAction.putBackSystem] ∧
    compSeen.system = compFresh.system ∧ compSeen.system.isSome = true :=
  default_runner_take_put_back compFresh 1 trigW compSeen
    [RunnerAction.setLastEventId 1, RunnerAction.takeSystem,
     RunnerAction.runCallback, RunnerAction.queueDeferred,
     RunnerAction.putBackSystem] (by decide) (by decide)

/-- Claim C3 counterexample: with the callback slot absent, a non-placeholder
source and a stale counter, the default runner does not return a defensive
skip — the `take` step's `debug_checked_unwrap` panics (modelled `none`;
unchecked, hence undefined behavior, in release builds), contradicting the
claim that the runner returns without panicking or undefined behavior. -/
theorem default_runner_absent_cex :
    ObserverComponent.default_runner compAbsent 1 trigW = none := by decide

/-- Claim C3 amended: when the take step finds the callback slot already absent
(past the placeholder and dedup checks), the default runner never invokes a
callback, but it aborts via a debug assertion (`debug_checked_unwrap`; panic in
debug builds, unchecked in release) rather than completing a defensive skip. -/
theorem default_runner_absent_panics (comp : ObserverComponent) (last_event : Nat)
    (trigger : ObserverTrigger) (hsrc : trigger.source ≠ Entity.PLACEHOLDER)
    (hne : comp.last_event_id ≠ last_event) (hsys : comp.system = none) :
    comp.default_runner last_event trigger = none := by
  simp [ObserverComponent.default_runner, hsrc, hne, hsys]

/-- Claim C3 amended witness: the slot-absent record aborts at batch counter 2. -/
theorem default_runner_absent_panics_witness :
    ObserverComponent.default_runner compAbsent 2 trigW = none :=
  default_runner_absent_panics compAbsent 2 trigW (by decide) (by decide) rfl

/-- Claim C4: a trigger whose source entity is the placeholder sentinel makes
the default runner a no-op: the record (counter and callback slot included) is
returned unchanged and no step — in particular no callback invocation — is
performed. -/
theorem default_runner_placeholder_noop (comp : ObserverComponent)
    (last_event : Nat) (trigger : ObserverTrigger)
    (hsrc : trigger.source = Entity.PLACEHOLDER) :
    comp.default_runner last_event trigger = some (comp, []) := by
  simp [ObserverComponent.default_runner, hsrc]

/-- Claim C4 witness: placeholder-source trigger leaves a fresh record unchanged. -/
theorem default_runner_placeholder_noop_witness :
    ObserverComponent.default_runner compFresh 1 trigPh = some (compFresh, []) :=
  default_runner_placeholder_noop compFresh 1 trigPh rfl

/-- Claim C5: constructing an observer record from a callback whose system
reports itself exclusive fails fatally (the `assert!` panics, modelled `none`)
at construction time; no observer record is produced. -/
theorem fromSystem_exclusive_rejected (descriptor : ObserverDescriptor)
    (sys : BoxedObserverSystem) (h : sys.is_exclusive = true) :
    ObserverComponent.fromSystem descriptor sys = none := by
  simp [ObserverComponent.fromSystem, h]

/-- Claim C5 witness: the concrete exclusive callback is rejected. -/
theorem fromSystem_exclusive_rejected_witness :
    ObserverComponent.fromSystem descW sysExcl = none :=
  fromSystem_exclusive_rejected descW sysExcl rfl

/-- Claim C6 counterexample: finalizing the concrete builder with a raw runner
does not attach the record immediately — it enqueues the insertion on the
deferred command queue (the queue, empty before the call, holds the insert
command afterwards), contradicting "attaches immediately (not deferred through
the command queue)". -/
theorem runnerFinalize_deferred_cex :
    (builderW.runnerFinalize (ObserverRunner.raw 7) []).2 =
      [ObserverCommand.insertComponent 5
        (ObserverComponent.from_runner descW (ObserverRunner.raw 7))] ∧
    (builderW.runnerFinalize (ObserverRunner.raw 7) []).2 ≠ [] := by decide

/-- Claim C6 amended: finalizing with `runner(rawRunner)` constructs the
observer record immediately — carrying the supplied raw runner, a clone of the
accumulated descriptor and no boxed callback (`system` is `none`) — returns the
host entity, and enqueues the record's insertion onto the host entity through
the command queue (the attachment itself is deferred, like every
`Commands`-based operation). -/
theorem runnerFinalize_constructs_now_defers_insert (b : ObserverBuilder)
    (r : ObserverRunner) (queue : List ObserverCommand) :
    (b.runnerFinalize r queue).1 = b.entity ∧
    (b.runnerFinalize r queue).2 =
      queue ++ [ObserverCommand.insertComponent b.entity
        { descriptor := b.descriptor, runner := r, system := none,
          last_event_id := 0 }] :=
  ⟨rfl, rfl⟩

/-- Claim C7: `run(callback)` appends the callback bundle's resolved component
identifiers to the descriptor's component set, enqueues one deferred
construct-and-insert command carrying a clone of the resulting descriptor and
the callback, and returns the host entity immediately — the queue has merely
grown, no attachment has executed. -/
theorem run_defers_construct_returns_entity (b : ObserverBuilder)
    (cs : Components) (bundle : List TypeId) (callback : BoxedObserverSystem)
    (queue : List ObserverCommand) (ids : List ComponentId)
    (h : resolveBundleIds cs bundle = some ids) :
    b.run cs bundle callback queue =
      some (b.entity,
        { b with descriptor :=
            { b.descriptor with components := b.descriptor.components ++ ids } },
        queue ++ [ObserverCommand.constructAndInsert b.entity
            { b.descriptor with components := b.descriptor.components ++ ids }
            callback]) := by
  simp [ObserverBuilder.run, h]

/-- Claim C7 witness: finalizing the concrete builder with a bundle resolving
to identifier 10 appends it, defers the construct-and-insert command with the
cloned descriptor, and returns host entity 5. -/
theorem run_defers_construct_returns_entity_witness :
    builderW.run csW [1] sysW [] =
      some (5,
        { entity := 5,
          descriptor := { events := [3], components := [4, 10], sources := [] } },
        [ObserverCommand.constructAndInsert 5
            { events := [3], components := [4, 10], sources := [] } sysW]) :=
  run_defers_construct_returns_entity builderW csW [1] sysW [] [10] rfl

/-- Claim C8: `emit()` moves the accumulated payload, target-entity list and
target-component list out of the builder into a single enqueued dispatch
command that also carries the optional overridden event identifier, and leaves
the builder with payload absent and both lists empty; a second `emit()` on the
emptied builder fails (the `unwrap` of the taken payload panics, modelled
`none`), so the builder is unusable for a second emission. -/
theorem emit_moves_out_and_empties {E : Type} (b : EventBuilder E)
    (queue : List (EmitEcsEvent E)) (d : E) (h : b.data = some d) :
    b.emit queue =
      some (queue ++ [{ event := b.event, data := d, entities := b.targets,
                        components := b.components }],
            { event := b.event, targets := [], components := [], data := none }) ∧
    (∀ queue2, EventBuilder.emit
        { event := b.event, targets := [], components := [],
          data := (none : Option E) } queue2 = none) := by
  constructor
  · simp [EventBuilder.emit, h]
  · intro queue2
    simp [EventBuilder.emit]

/-- Claim C8 witness: the concrete event builder emits one command carrying its
payload, override, targets and components, is left empty, and a second emission
on the emptied builder fails. -/
theorem emit_moves_out_and_empties_witness :
    (eventBuilderW.emit [] =
      some ([{ event := some 9, data := 42, entities := [4], components := [6] }],
            { event := some 9, targets := [], components := [],
              data := (none : Option Nat) })) ∧
    (EventBuilder.emit
        { event := some 9, targets := [], components := [],
          data := (none : Option Nat) } [] = none) :=
  ⟨(emit_moves_out_and_empties eventBuilderW [] 42 rfl).1,
   (emit_moves_out_and_empties eventBuilderW [] 42 rfl).2 []⟩

/-- Claim C9: using a type with no registry entry fails fatally (a panic,
modelled `none`, so no builder state and no descriptor results — never a silent
skip) in every observer-builder operation that resolves types: the constructor
`new_with_entity`, `on_event`, `components`, and `run`'s bundle resolution. -/
theorem unregistered_type_fatal (cs : Components) (t : TypeId) (e : Entity)
    (b : ObserverBuilder) (bundle : List TypeId) (callback : BoxedObserverSystem)
    (queue : List ObserverCommand) (h : cs.get_id t = none) :
    ObserverBuilder.new_with_entity cs t e = none ∧
    b.on_event cs t = none ∧
    (t ∈ bundle → b.components cs bundle = none) ∧
    (t ∈ bundle → b.run cs bundle callback queue = none) := by
  refine ⟨?_, ?_, fun hmem => ?_, fun hmem => ?_⟩
  · simp [ObserverBuilder.new_with_entity, h]
  · simp [ObserverBuilder.on_event, h]
  · simp [ObserverBuilder.components, resolveBundleIds_eq_none cs bundle t hmem h]
  · simp [ObserverBuilder.run, resolveBundleIds_eq_none cs bundle t hmem h]

/-- Claim C9 witness: type 99 is unregistered in the concrete registry, and all
four operations fail fatally on it. -/
theorem unregistered_type_fatal_witness :
    ObserverBuilder.new_with_entity csW 99 7 = none ∧
    builderW.on_event csW 99 = none ∧
    builderW.components csW [99] = none ∧
    builderW.run csW [99] sysW [] = none := by
  have hthm := unregistered_type_fatal csW 99 7 builderW [99] sysW [] rfl
  exact ⟨hthm.1, hthm.2.1, hthm.2.2.1 (by decide), hthm.2.2.2 (by decide)⟩

/-- Claim C10: constructing a builder for the default event type, whose
registered identifier is the `NO_EVENT` sentinel, leaves the descriptor's event
set empty — the sentinel is never pushed — and an empty event set is the
catch-all criterion: it matches every event identifier. -/
theorem new_with_entity_no_event_empty (cs : Components) (noEventTid : TypeId)
    (e : Entity) (h : cs.get_id noEventTid = some NO_EVENT) :
    (ObserverBuilder.new_with_entity cs noEventTid e =
      some { entity := e, descriptor := ObserverDescriptor.mkDefault }) ∧
    (∀ d : ObserverDescriptor, d.events = [] →
      ∀ eventId, eventCriterionMatches d eventId = true) := by
  constructor
  · simp [ObserverBuilder.new_with_entity, h]
  · intro d hd eventId
    simp [eventCriterionMatches, hd]

/-- Claim C10 witness: the concrete registry maps type 0 to the sentinel, and
building with it yields an empty descriptor. -/
theorem new_with_entity_no_event_empty_witness :
    ObserverBuilder.new_with_entity csW 0 7 =
      some { entity := 7, descriptor := ObserverDescriptor.mkDefault } :=
  (new_with_entity_no_event_empty csW 0 7 rfl).1

end BevyObserver
